import Mathlib

/-!
Verification development for the Testplansserver repository.

The embedding covers:
* JSON values as produced by `express.json()` / `JSON.parse` (`Json`, `jsonParse`);
* `AzureOpenAIService.parseRecommendations` (src/src/AzureOpenAIService.ts,
  lines 151-186): code-fence stripping, JSON parsing and shape validation;
* the Express application of src/src/server.ts: the route table in source
  registration order (including the `app.use('*')` 404 catch-all registered at
  line 444, BEFORE the four `/:resourceId` routes of lines 457-676), the
  in-memory `connections` / `testSuites` registries, and every route handler;
* JavaScript `parseInt` as used by the numeric-id guards.

Vendor-SDK calls (`AzureDevOpsTestPlansClient`) are modelled as an oracle
structure `Ado`; each invocation is also recorded in an explicit call trace so
that "no downstream call is made" is a provable statement.  Randomly generated
identifiers (`Math.random().toString(36).substr(2, n)`) are modelled as
parameters (`Gen`).  Timestamps (`new Date().toISOString()`) are omitted from
response bodies; no claim mentions them.
-/

namespace TPS

/-- JSON values, as produced by `express.json()` body parsing and `JSON.parse`. -/
inductive Json where
  | null : Json
  | bool : Bool → Json
  | num : Rat → Json
  | str : String → Json
  | arr : List Json → Json
  | obj : List (String × Json) → Json

/-- JavaScript property access `v.k` on a parsed JSON value: objects yield the
last binding for the key (later duplicate keys overwrite earlier ones in
`JSON.parse`); property access on anything else yields `undefined` (`none`). -/
def Json.getField : Json → String → Option Json
  | .obj fs, k => fs.reverse.lookup k
  | _, _ => none

/-- JavaScript truthiness of a JSON value: `null`, `false`, `0` and `""` are
falsy; every other JSON value is truthy. -/
def Json.truthy : Json → Bool
  | .null => false
  | .bool b => b
  | .num q => decide (q ≠ 0)
  | .str s => decide (s ≠ "")
  | .arr _ => true
  | .obj _ => true

/-- Truthiness of a possibly-absent value (`undefined` is falsy). -/
def truthyOpt : Option Json → Bool
  | none => false
  | some j => j.truthy

/-- `Array.isArray` on a possibly-absent value. -/
def isArrOpt : Option Json → Bool
  | some (.arr _) => true
  | _ => false

/-- The value is present and a JSON string. -/
def isStrOpt : Option Json → Bool
  | some (.str _) => true
  | _ => false

/-! ### A JSON parser (model of the JavaScript `JSON.parse` builtin) -/

/-- JSON insignificant whitespace. -/
def isJsonWs (c : Char) : Bool := c = ' ' || c = '\t' || c = '\n' || c = '\r'

/-- Drop leading JSON whitespace. -/
def skipWs : List Char → List Char
  | [] => []
  | c :: cs => if isJsonWs c then skipWs cs else c :: cs

def isDigit (c : Char) : Bool := '0' ≤ c && c ≤ '9'

def digitVal (c : Char) : Nat := c.toNat - '0'.toNat

def natOfDigits (ds : List Char) : Nat := ds.foldl (fun a c => a * 10 + digitVal c) 0

def hexVal (c : Char) : Option Nat :=
  let n := c.toNat
  if 48 ≤ n && n ≤ 57 then some (n - 48)
  else if 97 ≤ n && n ≤ 102 then some (n - 87)
  else if 65 ≤ n && n ≤ 70 then some (n - 55)
  else none

def natOfHexDigits (ds : List Char) : Nat := ds.foldl (fun a c => a * 16 + (hexVal c).getD 0) 0

/-- Parse the body of a JSON string literal (the opening quote is already
consumed), handling the JSON escape sequences. -/
def parseStringBody (acc : List Char) : List Char → Option (String × List Char)
  | [] => none
  | '"' :: rest => some (⟨acc.reverse⟩, rest)
  | '\\' :: rest =>
    match rest with
    | '"' :: r => parseStringBody ('"' :: acc) r
    | '\\' :: r => parseStringBody ('\\' :: acc) r
    | '/' :: r => parseStringBody ('/' :: acc) r
    | 'b' :: r => parseStringBody ('\x08' :: acc) r
    | 'f' :: r => parseStringBody ('\x0C' :: acc) r
    | 'n' :: r => parseStringBody ('\n' :: acc) r
    | 'r' :: r => parseStringBody ('\r' :: acc) r
    | 't' :: r => parseStringBody ('\t' :: acc) r
    | 'u' :: h1 :: h2 :: h3 :: h4 :: r =>
      match hexVal h1, hexVal h2, hexVal h3, hexVal h4 with
      | some a, some b, some c, some d =>
        parseStringBody (Char.ofNat (((a * 16 + b) * 16 + c) * 16 + d) :: acc) r
      | _, _, _, _ => none
    | _ => none
  | c :: rest => parseStringBody (c :: acc) rest

/-- Fractional part of a JSON number: `.digits`, or nothing. -/
def parseFrac : List Char → Option (List Char × List Char)
  | '.' :: r =>
    let ds := r.takeWhile isDigit
    if ds.isEmpty then none else some (ds, r.dropWhile isDigit)
  | r => some ([], r)

/-- Exponent part of a JSON number: `e`/`E` with optional sign, or nothing. -/
def parseExp : List Char → Option (Int × List Char)
  | c :: r =>
    if c = 'e' || c = 'E' then
      let (sgn, r1) : Int × List Char :=
        match r with
        | '+' :: rr => (1, rr)
        | '-' :: rr => (-1, rr)
        | rr => (1, rr)
      let ds := r1.takeWhile isDigit
      if ds.isEmpty then none
      else some (sgn * (natOfDigits ds : Int), r1.dropWhile isDigit)
    else some (0, c :: r)
  | [] => some (0, [])

/-- Parse a JSON number (optional minus sign; integer part `0` or a nonzero
digit followed by digits; optional fraction and exponent). -/
def parseNumber (cs : List Char) : Option (Rat × List Char) :=
  let (neg, cs1) : Bool × List Char :=
    match cs with
    | '-' :: r => (true, r)
    | r => (false, r)
  match cs1 with
  | [] => none
  | c :: rest =>
    if !isDigit c then none
    else
      let (ip, rest0) : List Char × List Char :=
        if c = '0' then ([c], rest)
        else ((c :: rest).takeWhile isDigit, (c :: rest).dropWhile isDigit)
      match parseFrac rest0 with
      | none => none
      | some (fds, rest1) =>
        match parseExp rest1 with
        | none => none
        | some (e, rest2) =>
          let mant : Rat := (natOfDigits ip : Rat) + (natOfDigits fds : Rat) / ((10 : Rat) ^ fds.length)
          let mag : Rat := if 0 ≤ e then mant * (10 : Rat) ^ e.toNat else mant / ((10 : Rat) ^ ((-e).toNat))
          some ((if neg then -mag else mag), rest2)

mutual

/-- Parse one JSON value (fuel-indexed). -/
def parseVal : Nat → List Char → Option (Json × List Char)
  | 0, _ => none
  | fuel + 1, cs =>
    match skipWs cs with
    | 'n' :: 'u' :: 'l' :: 'l' :: rest => some (.null, rest)
    | 't' :: 'r' :: 'u' :: 'e' :: rest => some (.bool true, rest)
    | 'f' :: 'a' :: 'l' :: 's' :: 'e' :: rest => some (.bool false, rest)
    | '"' :: rest =>
      match parseStringBody [] rest with
      | some (s, r) => some (.str s, r)
      | none => none
    | '[' :: rest =>
      (match skipWs rest with
       | ']' :: r => some (.arr [], r)
       | r =>
         match parseItems fuel r with
         | some (items, r') => some (.arr items, r')
         | none => none)
    | '\x7b' :: rest =>
      (match skipWs rest with
       | '\x7d' :: r => some (.obj [], r)
       | r =>
         match parseMembers fuel r with
         | some (ms, r') => some (.obj ms, r')
         | none => none)
    | cs' =>
      match parseNumber cs' with
      | some (q, r) => some (.num q, r)
      | none => none

/-- Parse the comma-separated items of a nonempty JSON array (the opening
bracket is already consumed). -/
def parseItems : Nat → List Char → Option (List Json × List Char)
  | 0, _ => none
  | fuel + 1, cs =>
    match parseVal fuel cs with
    | none => none
    | some (v, rest) =>
      match skipWs rest with
      | ',' :: r =>
        (match parseItems fuel r with
         | some (vs, r') => some (v :: vs, r')
         | none => none)
      | ']' :: r => some ([v], r)
      | _ => none

/-- Parse the comma-separated members of a nonempty JSON object (the opening
brace is already consumed). -/
def parseMembers : Nat → List Char → Option (List (String × Json) × List Char)
  | 0, _ => none
  | fuel + 1, cs =>
    match skipWs cs with
    | '"' :: rest =>
      (match parseStringBody [] rest with
       | none => none
       | some (k, rest1) =>
         match skipWs rest1 with
         | ':' :: rest2 =>
           (match parseVal fuel rest2 with
            | none => none
            | some (v, rest3) =>
              match skipWs rest3 with
              | ',' :: r =>
                (match parseMembers fuel r with
                 | some (ms, r') => some ((k, v) :: ms, r')
                 | none => none)
              | '\x7d' :: r => some ([(k, v)], r)
              | _ => none)
         | _ => none)
    | _ => none

end

/-- Model of `JSON.parse`: parse one value surrounded by whitespace and
require the input to be fully consumed. -/
def jsonParse (s : String) : Option Json :=
  match parseVal (2 * s.data.length + 2) s.data with
  | some (v, rest) => if (skipWs rest).isEmpty then some v else none
  | none => none

/-! ### `AzureOpenAIService.parseRecommendations` (src/src/AzureOpenAIService.ts 151-186) -/

/-- JavaScript `\s` whitespace (ASCII part), as used by the fence-stripping
regexes and by `String.prototype.trim`. -/
def isJsWs (c : Char) : Bool :=
  c = ' ' || c = '\t' || c = '\n' || c = '\r' || c = '\x0B' || c = '\x0C'

/-- Drop a leading run of JavaScript whitespace. -/
def dropJsWs : List Char → List Char
  | [] => []
  | c :: cs => if isJsWs c then dropJsWs cs else c :: cs

/-- One global regex replacement `content.replace(/PAT\s*\n?/g, '')` where
`PAT` is a literal: scanning left to right, every occurrence of the literal
together with the (greedy, hence maximal) run of following whitespace is
removed. -/
def stripFenceAux (pat : List Char) : Nat → List Char → List Char
  | 0, _ => []
  | _, [] => []
  | fuel + 1, c :: cs =>
    if pat.isPrefixOf (c :: cs) then
      stripFenceAux pat fuel (dropJsWs ((c :: cs).drop pat.length))
    else c :: stripFenceAux pat fuel cs

def stripAll (pat : String) (cs : List Char) : List Char :=
  stripFenceAux pat.data cs.length cs

/-- `String.prototype.trim`: drop leading and trailing whitespace. -/
def trimJs (cs : List Char) : List Char :=
  (dropJsWs (dropJsWs cs).reverse).reverse

/-- The content cleaning of `parseRecommendations`:
`content.replace(/```json\s*\n?/g, '').replace(/```\s*\n?/g, '').trim()`.
Because `\s*` is greedy (and `\n` is itself in `\s`), each fence marker is
removed together with the whole run of whitespace that follows it; the
replacement is global, not restricted to the leading/trailing fences. -/
def cleanContent (content : String) : String :=
  ⟨trimJs (stripAll "```" (stripAll "```json" content.data))⟩

/-- The `testCases` array of a recommendation element (empty when the field is
not an array; the validation only reaches it when it is). -/
def tcList (rec : Json) : List Json :=
  match rec.getField "testCases" with
  | some (.arr l) => l
  | _ => []

/-- The per-recommendation field check of `parseRecommendations` (line 168):
`!rec.name || !rec.description || !rec.objective || !Array.isArray(rec.testCases)`
throws, so all three fields must be truthy and `testCases` an array. -/
def recFieldsOk (rec : Json) : Bool :=
  truthyOpt (rec.getField "name") && truthyOpt (rec.getField "description") &&
    truthyOpt (rec.getField "objective") && isArrOpt (rec.getField "testCases")

/-- The per-test-case check of `parseRecommendations` (line 173):
`!testCase.title || !testCase.description || !Array.isArray(testCase.steps) || !testCase.expectedResult`
throws, so the three fields must be truthy and `steps` an array. -/
def tcOk (tc : Json) : Bool :=
  truthyOpt (tc.getField "title") && truthyOpt (tc.getField "description") &&
    isArrOpt (tc.getField "steps") && truthyOpt (tc.getField "expectedResult")

/-- The `forEach` over the test cases of recommendation `i` (throwing on the
first invalid test case, with its index in the message). -/
def validateTCs (i : Nat) : Nat → List Json → Except String Unit
  | _, [] => .ok ()
  | j, tc :: rest =>
    if tcOk tc then validateTCs i (j + 1) rest
    else .error s!"Invalid test case structure at recommendation {i}, test case {j}"

/-- The `forEach` over the parsed recommendations (throwing on the first
invalid element, with its index in the message). -/
def validateRecs : Nat → List Json → Except String Unit
  | _, [] => .ok ()
  | i, rec :: rest =>
    if recFieldsOk rec then
      match validateTCs i 0 (tcList rec) with
      | .ok _ => validateRecs (i + 1) rest
      | .error m => .error m
    else .error s!"Invalid recommendation structure at index {i}"

/-- Declarative form of the whole-array validation. -/
def recsValid (l : List Json) : Bool :=
  l.all fun rec => recFieldsOk rec && (tcList rec).all tcOk

/-- Stand-in for the engine-specific `JSON.parse` exception message. -/
def jsonParseErrMsg : String := "Unexpected token in JSON"

/-- `AzureOpenAIService.parseRecommendations` (lines 151-186): clean the
content, `JSON.parse` it, require a JSON array, validate every element and
every test case; any thrown error is re-thrown with the
`Failed to parse recommendations: ` message prefixed. -/
def parseRecommendations (content : String) : Except String Json :=
  match jsonParse (cleanContent content) with
  | none => .error ("Failed to parse recommendations: " ++ jsonParseErrMsg)
  | some (.arr recs) =>
    match validateRecs 0 recs with
    | .ok _ => .ok (.arr recs)
    | .error m => .error ("Failed to parse recommendations: " ++ m)
  | some _ =>
    .error ("Failed to parse recommendations: Response must be an array of test plan recommendations")

/-! ### The HTTP server of src/src/server.ts -/

/-- JavaScript `parseInt(s)` with the radix unspecified: trim whitespace, read
an optional sign, detect a `0x`/`0X` hexadecimal prefix, then take the longest
prefix of valid digits; `NaN` (here `none`) exactly when no digit is read.
In particular `parseInt("12abc") = 12` and `parseInt("3.7") = 3`. -/
def jsParseInt (s : String) : Option Int :=
  let cs := dropJsWs s.data
  let (neg, cs1) : Bool × List Char :=
    match cs with
    | '-' :: r => (true, r)
    | '+' :: r => (false, r)
    | r => (false, r)
  let signed : Nat → Int := fun n => if neg then -(n : Int) else (n : Int)
  match cs1 with
  | '0' :: 'x' :: r =>
    let hs := r.takeWhile (fun c => (hexVal c).isSome)
    if hs.isEmpty then none else some (signed (natOfHexDigits hs))
  | '0' :: 'X' :: r =>
    let hs := r.takeWhile (fun c => (hexVal c).isSome)
    if hs.isEmpty then none else some (signed (natOfHexDigits hs))
  | r =>
    let ds := r.takeWhile isDigit
    if ds.isEmpty then none else some (signed (natOfDigits ds))

/-- A saved connection (server.ts lines 25-32).  The TypeScript interface
declares the four url/prd fields as `string`, but at runtime they hold
whatever (truthy) JSON values the save-connection body supplied. -/
structure Connection where
  resourceId : String
  connectionId : String
  github_url : Json
  prd : Json
  ado_url : Json
  website_url : Json

/-- A mock test case (server.ts lines 34-39).  `name`/`steps` hold strings on
the `ado_plans` path and arbitrary body values on the `createIssue` path. -/
structure MockTestCase where
  name : Json
  steps : List Json
  issueId : Option String
  status : Option String

/-- A mock test suite (server.ts lines 41-45). -/
structure TestSuite where
  name : String
  testCaseId : String
  testCases : List MockTestCase

/-- A test plan as returned by the vendor adapter's `getAllTestPlans`, with
the two fields the `ado_plans` handler reads. -/
structure AdoPlan where
  id : Option Nat
  name : Option String

/-- The process-wide mutable state: the nullable `adoClient` (as its
initialized-ness) and the two registries (server.ts lines 22, 47-48). -/
structure ServerState where
  adoInitialized : Bool
  connections : List (String × Connection)
  testSuites : List (String × List TestSuite)

/-- `Map.prototype.set`: bind `k`, dropping any previous binding. -/
def mapSet {α : Type} (m : List (String × α)) (k : String) (v : α) : List (String × α) :=
  (k, v) :: m.filter (fun p => !(p.1 == k))

/-- `Map.prototype.get`. -/
def mapGet {α : Type} (m : List (String × α)) (k : String) : Option α :=
  m.lookup k

/-- One call on the vendor client adapter (`AzureDevOpsTestPlansClient`). -/
inductive AdoCall where
  | getAllTestPlans (filterActivePlans includePlanDetails : Bool)
  | getTestPlan (id : Int)
  | createTestPlan (name iteration description startDate endDate areaPath : Option Json)
  | updateTestPlan (id : Int) (updates : Json)
  | deleteTestPlan (id : Int)
  | createTestCase (title steps priority areaPath iterationPath : Option Json)
  | getTestCaseDetails (id : Int)
  | getMultipleTestCaseDetails (ids : List Json)
  | addTestCasesToSuite (planId suiteId : Int) (testCaseIds : Json)
  | getTestCaseList (planId suiteId : Int)
  | getTestResultsFromBuildId (buildId : Int)

/-- Oracle for the results of vendor adapter calls (the adapter itself is an
external collaborator; spec section 6). -/
structure Ado where
  getAllTestPlans : Bool → Bool → List AdoPlan
  getTestPlan : Int → Option Json
  createTestPlan : Option Json → Option Json → Option Json → Option Json → Option Json → Option Json → Json
  updateTestPlan : Int → Json → Json
  createTestCase : Option Json → Option Json → Option Json → Option Json → Option Json → Json
  getTestCaseDetails : Int → Json
  getMultipleTestCaseDetails : List Json → Json
  addTestCasesToSuite : Int → Int → Json → Json
  getTestCaseList : Int → Int → List Json
  getTestResultsFromBuildId : Int → Json

/-- The identifiers produced by `Math.random().toString(36).substr(2, n)` in
the save-connection and create-issue handlers, supplied as parameters. -/
structure Gen where
  connectionId : String
  issueId : String

inductive Method where
  | GET : Method
  | POST : Method
  | PUT : Method
  | DELETE : Method
deriving DecidableEq, BEq

/-- An HTTP request: method, path split into segments, query parameters and
the JSON-parsed body. -/
structure Request where
  method : Method
  path : List String
  query : List (String × String)
  body : Json

/-- The JSON response bodies the server produces, one constructor per shape
(timestamps omitted). -/
inductive RespBody where
  | health (clientInitialized : Bool)
  | apiDoc
  | err (error : String) (message : Option String)
  | notFoundBody (error : String) (message : String) (availableEndpoints : String)
  | plansList (data : List AdoPlan) (count : Nat) (filterActivePlans includePlanDetails : Bool)
  | okData (data : Json) (message : Option String)
  | okMsg (message : String)
  | raw (data : Json)
  | suiteCases (data : List Json) (count : Nat) (planId suiteId : Int)
  | buildResults (data : Json) (buildId : Int)
  | saveOk (message status resourceId connectionId : String)
  | connectionData (github_url prd ado_url website_url : Json) (resourceId connectionId : String)
  | suitesResp (suites : List TestSuite)

structure Response where
  status : Nat
  body : RespBody

/-- The 500 response of the `ensureClientInitialized` middleware
(server.ts lines 63-71). -/
def notInitializedResp : Response :=
  ⟨500, .err "Azure DevOps client not initialized"
    (some "Server is starting up, please try again in a moment")⟩

/-- GET /health (lines 89-95). -/
def healthHandler (st : ServerState) : Response :=
  ⟨200, .health st.adoInitialized⟩

/-- GET /api/testplans (lines 131-147): query coercion
`filterActivePlans !== 'false'` (default true) and
`includePlanDetails === 'true'` (default false); the response echoes both
resolved flags in its `filters` field. -/
def getTestPlansHandler (ado : Ado) (st : ServerState) (req : Request) :
    Response × ServerState × List AdoCall :=
  let filterActivePlans := !(req.query.lookup "filterActivePlans" == some "false")
  let includePlanDetails := req.query.lookup "includePlanDetails" == some "true"
  let testPlans := ado.getAllTestPlans filterActivePlans includePlanDetails
  (⟨200, .plansList testPlans testPlans.length filterActivePlans includePlanDetails⟩, st,
    [.getAllTestPlans filterActivePlans includePlanDetails])

/-- GET /api/testplans/:id (lines 153-180). -/
def getTestPlanByIdHandler (ado : Ado) (st : ServerState) (idStr : String) :
    Response × ServerState × List AdoCall :=
  match jsParseInt idStr with
  | none =>
    (⟨400, .err "Invalid test plan ID" (some "Test plan ID must be a number")⟩, st, [])
  | some testPlanId =>
    match ado.getTestPlan testPlanId with
    | none =>
      (⟨404, .err "Test plan not found" (some s!"Test plan with ID {testPlanId} not found")⟩,
        st, [.getTestPlan testPlanId])
    | some tp => (⟨200, .okData tp none⟩, st, [.getTestPlan testPlanId])

/-- POST /api/testplans (lines 187-208). -/
def createTestPlanHandler (ado : Ado) (st : ServerState) (body : Json) :
    Response × ServerState × List AdoCall :=
  let name := body.getField "name"
  let iteration := body.getField "iteration"
  if !truthyOpt name || !truthyOpt iteration then
    (⟨400, .err "Missing required fields" (some "name and iteration are required")⟩, st, [])
  else
    let tp := ado.createTestPlan name iteration (body.getField "description")
      (body.getField "startDate") (body.getField "endDate") (body.getField "areaPath")
    (⟨201, .okData tp (some "Test plan created successfully")⟩, st,
      [.createTestPlan name iteration (body.getField "description")
        (body.getField "startDate") (body.getField "endDate") (body.getField "areaPath")])

/-- PUT /api/testplans/:id (lines 215-245). -/
def updateTestPlanHandler (ado : Ado) (st : ServerState) (idStr : String) (body : Json) :
    Response × ServerState × List AdoCall :=
  match jsParseInt idStr with
  | none =>
    (⟨400, .err "Invalid test plan ID" (some "Test plan ID must be a number")⟩, st, [])
  | some testPlanId =>
    if !truthyOpt (body.getField "iteration") then
      (⟨400, .err "Missing required field" (some "iteration is required for updates")⟩, st, [])
    else
      (⟨200, .okData (ado.updateTestPlan testPlanId body) (some "Test plan updated successfully")⟩,
        st, [.updateTestPlan testPlanId body])

/-- DELETE /api/testplans/:id (lines 251-271). -/
def deleteTestPlanHandler (st : ServerState) (idStr : String) :
    Response × ServerState × List AdoCall :=
  match jsParseInt idStr with
  | none =>
    (⟨400, .err "Invalid test plan ID" (some "Test plan ID must be a number")⟩, st, [])
  | some testPlanId =>
    (⟨200, .okMsg "Test plan deleted successfully"⟩, st, [.deleteTestPlan testPlanId])

/-- POST /api/testcases (lines 278-299). -/
def createTestCaseHandler (ado : Ado) (st : ServerState) (body : Json) :
    Response × ServerState × List AdoCall :=
  let title := body.getField "title"
  if !truthyOpt title then
    (⟨400, .err "Missing required field" (some "title is required")⟩, st, [])
  else
    let tc := ado.createTestCase title (body.getField "steps") (body.getField "priority")
      (body.getField "areaPath") (body.getField "iterationPath")
    (⟨201, .okData tc (some "Test case created successfully")⟩, st,
      [.createTestCase title (body.getField "steps") (body.getField "priority")
        (body.getField "areaPath") (body.getField "iterationPath")])

/-- GET /api/testcases/:id (lines 305-317). -/
def getTestCaseDetailsHandler (ado : Ado) (st : ServerState) (idStr : String) :
    Response × ServerState × List AdoCall :=
  match jsParseInt idStr with
  | none => (⟨400, .err "Invalid test case ID" none⟩, st, [])
  | some id =>
    (⟨200, .raw (ado.getTestCaseDetails id)⟩, st, [.getTestCaseDetails id])

/-- `Number.isInteger(id) && id > 0` on a JSON value. -/
def isPosIntJson : Json → Bool
  | .num q => decide (q.den = 1) && decide (0 < q)
  | _ => false

/-- POST /api/testcases/batch (lines 324-347): `ids` must be a non-empty
array (first check), of at most 100 entries (second check), all positive
integers (third check); only then is the adapter called. -/
def batchHandler (ado : Ado) (st : ServerState) (body : Json) :
    Response × ServerState × List AdoCall :=
  match body.getField "ids" with
  | some (.arr ids) =>
    if ids.length = 0 then
      (⟨400, .err "ids array is required and cannot be empty" none⟩, st, [])
    else if ids.length > 100 then
      (⟨400, .err "Maximum 100 test case IDs allowed per request" none⟩, st, [])
    else
      let validIds := ids.filter isPosIntJson
      if validIds.length ≠ ids.length then
        (⟨400, .err "All IDs must be positive integers" none⟩, st, [])
      else
        (⟨200, .raw (ado.getMultipleTestCaseDetails validIds)⟩, st,
          [.getMultipleTestCaseDetails validIds])
  | _ => (⟨400, .err "ids array is required and cannot be empty" none⟩, st, [])

/-- POST /api/testplans/:planId/suites/:suiteId/testcases (lines 354-384). -/
def addToSuiteHandler (ado : Ado) (st : ServerState) (planIdStr suiteIdStr : String)
    (body : Json) : Response × ServerState × List AdoCall :=
  match jsParseInt planIdStr, jsParseInt suiteIdStr with
  | some planId, some suiteId =>
    let testCaseIds := body.getField "testCaseIds"
    if !truthyOpt testCaseIds then
      (⟨400, .err "Missing required field" (some "testCaseIds is required")⟩, st, [])
    else
      let tci := testCaseIds.getD .null
      (⟨200, .okData (ado.addTestCasesToSuite planId suiteId tci)
          (some "Test cases added to suite successfully")⟩, st,
        [.addTestCasesToSuite planId suiteId tci])
  | _, _ =>
    (⟨400, .err "Invalid IDs" (some "Plan ID and Suite ID must be numbers")⟩, st, [])

/-- GET /api/testplans/:planId/suites/:suiteId/testcases (lines 390-414). -/
def suiteCasesHandler (ado : Ado) (st : ServerState) (planIdStr suiteIdStr : String) :
    Response × ServerState × List AdoCall :=
  match jsParseInt planIdStr, jsParseInt suiteIdStr with
  | some planId, some suiteId =>
    let testCases := ado.getTestCaseList planId suiteId
    (⟨200, .suiteCases testCases testCases.length planId suiteId⟩, st,
      [.getTestCaseList planId suiteId])
  | _, _ =>
    (⟨400, .err "Invalid IDs" (some "Plan ID and Suite ID must be numbers")⟩, st, [])

/-- GET /api/builds/:buildId/testresults (lines 420-441). -/
def buildResultsHandler (ado : Ado) (st : ServerState) (buildIdStr : String) :
    Response × ServerState × List AdoCall :=
  match jsParseInt buildIdStr with
  | none =>
    (⟨400, .err "Invalid build ID" (some "Build ID must be a number")⟩, st, [])
  | some buildId =>
    (⟨200, .buildResults (ado.getTestResultsFromBuildId buildId) buildId⟩, st,
      [.getTestResultsFromBuildId buildId])

/-- `req.originalUrl` for the requests we model. -/
def reqUrl (req : Request) : String :=
  "/" ++ String.intercalate "/" req.path

/-- The `app.use('*')` 404 catch-all (lines 444-450). -/
def notFoundHandler (req : Request) : Response :=
  ⟨404, .notFoundBody "Not Found" ("Route " ++ reqUrl req ++ " not found") "/"⟩

/-- POST /:resourceId/saveConnection (lines 457-498): all four body fields
must be truthy, then the connection (with a fresh connectionId) overwrites any
previous entry for this resourceId. -/
def saveConnectionHandler (gen : Gen) (st : ServerState) (resourceId : String) (body : Json) :
    Response × ServerState × List AdoCall :=
  let github_url := body.getField "github_url"
  let prd := body.getField "prd"
  let ado_url := body.getField "ado_url"
  let website_url := body.getField "website_url"
  if !truthyOpt github_url || !truthyOpt prd || !truthyOpt ado_url || !truthyOpt website_url then
    (⟨400, .err "Missing required fields"
        (some "github_url, prd, ado_url, and website_url are required")⟩, st, [])
  else
    let connectionId := gen.connectionId
    let connection : Connection :=
      { resourceId := resourceId, connectionId := connectionId,
        github_url := github_url.getD .null, prd := prd.getD .null,
        ado_url := ado_url.getD .null, website_url := website_url.getD .null }
    (⟨200, .saveOk "Connection saved successfully" "success" resourceId connectionId⟩,
      { st with connections := mapSet st.connections resourceId connection }, [])

/-- GET /:resourceId (lines 504-531). -/
def getConnectionHandler (st : ServerState) (resourceId : String) :
    Response × ServerState × List AdoCall :=
  match mapGet st.connections resourceId with
  | none =>
    (⟨404, .err "Connection not found"
        (some ("No connection found for resourceId: " ++ resourceId))⟩, st, [])
  | some c =>
    (⟨200, .connectionData c.github_url c.prd c.ado_url c.website_url c.resourceId c.connectionId⟩,
      st, [])

/-- The template-literal rendering of a possibly-undefined string. -/
def optShow : Option String → String
  | some s => s
  | none => "undefined"

/-- The suite synthesized for one vendor plan by the `ado_plans` handler
(lines 556-580): plans whose `id` is falsy are skipped. -/
def planToSuite (plan : AdoPlan) : Option TestSuite :=
  match plan.id with
  | some n =>
    if n ≠ 0 then
      some
        { name := match plan.name with
            | some s => if s ≠ "" then s else "Test Plan " ++ toString n
            | none => "Test Plan " ++ toString n,
          testCaseId := toString n,
          testCases :=
            [{ name := .str ("Sample test case for " ++ optShow plan.name),
               steps := [.str "Step 1: Navigate to application",
                 .str "Step 2: Perform test action",
                 .str "Step 3: Verify expected result"],
               issueId := none, status := none }] }
    else none
  | none => none

/-- GET /:resourceId/ado_plans (lines 537-593): 404 without a saved
connection; otherwise fetch all plans (active + detailed), synthesize one
mock suite per plan and overwrite the stored suite list for this resourceId. -/
def adoPlansHandler (ado : Ado) (st : ServerState) (resourceId : String) :
    Response × ServerState × List AdoCall :=
  match mapGet st.connections resourceId with
  | none =>
    (⟨404, .err "Connection not found"
        (some ("No connection found for resourceId: " ++ resourceId ++
          ". Please save connection first."))⟩, st, [])
  | some _ =>
    let testPlans := ado.getAllTestPlans true true
    let suites := testPlans.filterMap planToSuite
    (⟨200, .suitesResp suites⟩,
      { st with testSuites := mapSet st.testSuites resourceId suites },
      [.getAllTestPlans true true])

/-- POST /:resourceId/createIssue/:testCaseId (lines 600-676): 404 without a
saved connection; 400 unless `title` and `body` are truthy; every test case
of every suite whose `testCaseId` equals the path parameter gets the fresh
issueId and status "Creating"; if no suite matched, a new single-test-case
suite named "GitHub Issue Suite" is appended.  The (possibly extended) suite
list is stored back for this resourceId and returned. -/
def createIssueHandler (gen : Gen) (st : ServerState) (resourceId testCaseId : String)
    (body : Json) : Response × ServerState × List AdoCall :=
  match mapGet st.connections resourceId with
  | none =>
    (⟨404, .err "Connection not found"
        (some ("No connection found for resourceId: " ++ resourceId ++
          ". Please save connection first."))⟩, st, [])
  | some _ =>
    let title := body.getField "title"
    let bodyField := body.getField "body"
    if !truthyOpt title || !truthyOpt bodyField then
      (⟨400, .err "Missing required fields" (some "title and body are required")⟩, st, [])
    else
      let suites := (mapGet st.testSuites resourceId).getD []
      let issueId := gen.issueId
      let mapped := suites.map fun suite =>
        if suite.testCaseId == testCaseId then
          { suite with testCases := suite.testCases.map fun tc =>
              { tc with issueId := some issueId, status := some "Creating" } }
        else suite
      let issueCreated := suites.any fun suite => suite.testCaseId == testCaseId
      let final :=
        if issueCreated then mapped
        else mapped ++
          [{ name := "GitHub Issue Suite", testCaseId := testCaseId,
             testCases := [{ name := title.getD .null,
                             steps := [bodyField.getD .null],
                             issueId := some issueId,
                             status := some "Creating" }] }]
      (⟨200, .suitesResp final⟩,
        { st with testSuites := mapSet st.testSuites resourceId final }, [])

/-! ### The route table, in source registration order -/

/-- One segment of a registered route pattern. -/
inductive Seg where
  | lit (s : String)
  | par

/-- A route pattern: a segment list, or the `'*'` pattern of `app.use`. -/
inductive Pat where
  | segs (l : List Seg)
  | star

/-- Match a segment pattern against a path, returning the parameter values in
order. -/
def segsMatch : List Seg → List String → Option (List String)
  | [], [] => some []
  | .lit s :: ps, x :: xs => if s == x then segsMatch ps xs else none
  | .par :: ps, x :: xs => (segsMatch ps xs).map (x :: ·)
  | _, _ => none

def patMatch : Pat → List String → Option (List String)
  | .star, _ => some []
  | .segs l, p => segsMatch l p

/-- A registered route: `app.use` registrations match every method. -/
structure Route where
  method : Option Method
  pat : Pat
  handler : Ado → Gen → ServerState → Request → List String →
    Response × ServerState × List AdoCall

/-- The `ensureClientInitialized` middleware (lines 63-71) applied in front of
a handler: reject with 500 while `adoClient` is null, without calling the
handler (hence no adapter call and no state change); rejected requests are
simply answered, not queued or retried. -/
def gated
    (h : Ado → Gen → ServerState → Request → List String →
      Response × ServerState × List AdoCall) :
    Ado → Gen → ServerState → Request → List String →
      Response × ServerState × List AdoCall :=
  fun ado gen st req ps =>
    if st.adoInitialized then h ado gen st req ps else (notInitializedResp, st, [])

/-- The Express route registrations of server.ts, in source order.  Note the
404 catch-all `app.use('*')` of line 444 is registered BEFORE the four
`/:resourceId` routes of lines 457, 504, 537 and 600, exactly as in the
source. -/
def routes : List Route := [
  ⟨some .GET, .segs [.lit "health"], fun _ _ st _ _ => (healthHandler st, st, [])⟩,
  ⟨some .GET, .segs [], fun _ _ st _ _ => (⟨200, .apiDoc⟩, st, [])⟩,
  ⟨some .GET, .segs [.lit "api", .lit "testplans"],
    gated fun ado _ st req _ => getTestPlansHandler ado st req⟩,
  ⟨some .GET, .segs [.lit "api", .lit "testplans", .par],
    gated fun ado _ st _ ps => getTestPlanByIdHandler ado st (ps.headD "")⟩,
  ⟨some .POST, .segs [.lit "api", .lit "testplans"],
    gated fun ado _ st req _ => createTestPlanHandler ado st req.body⟩,
  ⟨some .PUT, .segs [.lit "api", .lit "testplans", .par],
    gated fun ado _ st req ps => updateTestPlanHandler ado st (ps.headD "") req.body⟩,
  ⟨some .DELETE, .segs [.lit "api", .lit "testplans", .par],
    gated fun _ _ st _ ps => deleteTestPlanHandler st (ps.headD "")⟩,
  ⟨some .POST, .segs [.lit "api", .lit "testcases"],
    gated fun ado _ st req _ => createTestCaseHandler ado st req.body⟩,
  ⟨some .GET, .segs [.lit "api", .lit "testcases", .par],
    gated fun ado _ st _ ps => getTestCaseDetailsHandler ado st (ps.headD "")⟩,
  ⟨some .POST, .segs [.lit "api", .lit "testcases", .lit "batch"],
    gated fun ado _ st req _ => batchHandler ado st req.body⟩,
  ⟨some .POST, .segs [.lit "api", .lit "testplans", .par, .lit "suites", .par, .lit "testcases"],
    gated fun ado _ st req ps =>
      addToSuiteHandler ado st (ps.headD "") ((ps.drop 1).headD "") req.body⟩,
  ⟨some .GET, .segs [.lit "api", .lit "testplans", .par, .lit "suites", .par, .lit "testcases"],
    gated fun ado _ st _ ps => suiteCasesHandler ado st (ps.headD "") ((ps.drop 1).headD "")⟩,
  ⟨some .GET, .segs [.lit "api", .lit "builds", .par, .lit "testresults"],
    gated fun ado _ st _ ps => buildResultsHandler ado st (ps.headD "")⟩,
  ⟨none, .star, fun _ _ st req _ => (notFoundHandler req, st, [])⟩,
  ⟨some .POST, .segs [.par, .lit "saveConnection"],
    fun _ gen st req ps => saveConnectionHandler gen st (ps.headD "") req.body⟩,
  ⟨some .GET, .segs [.par],
    fun _ _ st _ ps => getConnectionHandler st (ps.headD "")⟩,
  ⟨some .GET, .segs [.par, .lit "ado_plans"],
    gated fun ado _ st _ ps => adoPlansHandler ado st (ps.headD "")⟩,
  ⟨some .POST, .segs [.par, .lit "createIssue", .par],
    fun _ gen st req ps => createIssueHandler gen st (ps.headD "") ((ps.drop 1).headD "") req.body⟩]

def methodOk : Option Method → Method → Bool
  | none, _ => true
  | some m, m' => m == m'

/-- Express dispatch: try the registered routes in order, run the first whose
method and pattern match; a handler that sends a response ends the chain. -/
def dispatch (ado : Ado) (gen : Gen) :
    List Route → ServerState → Request → Response × ServerState × List AdoCall
  | [], st, req => (notFoundHandler req, st, [])
  | r :: rest, st, req =>
    if methodOk r.method req.method then
      match patMatch r.pat req.path with
      | some ps => r.handler ado gen st req ps
      | none => dispatch ado gen rest st req
    else dispatch ado gen rest st req

/-- Serve one request against the full application. -/
def serve (ado : Ado) (gen : Gen) (st : ServerState) (req : Request) :
    Response × ServerState × List AdoCall :=
  dispatch ado gen routes st req

/-! ### The recommendation endpoint (not present in src/) -/

/-- The data object of a successful recommendation response. -/
structure RecData where
  testPlanId : String
  prdLength : Nat
  existingTestCasesCount : Nat
  recommendations : Json
  generatedAt : String

/-- Outcome of the recommendation endpoint. -/
inductive RecResult where
  | badRequest (error : String)
  | upstream (status : Nat) (error : String)
  | ok (data : RecData)

/-- Modelled from the spec: the handler for POST /api/testplans/recommendations
is not in src/ (src/src/server.ts has no such route; only its README
documentation, its test script and the `AzureOpenAIService` collaborator are
present).  Per spec section 4.2 and the README: `prd` is a required non-empty
string (400 with "PRD (Product Requirements Document) is required" if
missing); `testPlanId` comes from the body or falls back to the configured
TEST_PLAN_ID (400 naming TEST_PLAN_ID if neither is supplied); existing test
cases are counted for the envelope; the language-model call either fails
upstream (502) or yields the recommendations, wrapped as
`{testPlanId, prdLength, existingTestCasesCount, recommendations, generatedAt}`. -/
def recommendationsHandler (envTestPlanId : Option String) (existingCount : Nat)
    (llm : Except String Json) (now : String) (body : Json) : RecResult :=
  match body.getField "prd" with
  | some (.str prd) =>
    if prd = "" then .badRequest "PRD (Product Requirements Document) is required"
    else
      let testPlanId :=
        match body.getField "testPlanId" with
        | some (.str t) => some t
        | _ => envTestPlanId
      match testPlanId with
      | none =>
        .badRequest "Test Plan ID is required either in request body or TEST_PLAN_ID environment variable"
      | some tid =>
        match llm with
        | .error e => .upstream 502 e
        | .ok recs =>
          .ok { testPlanId := tid, prdLength := prd.length,
                existingTestCasesCount := existingCount,
                recommendations := recs, generatedAt := now }
  | _ => .badRequest "PRD (Product Requirements Document) is required"

/-! ### Concrete instantiations used by witnesses and counterexamples -/

/-- A concrete vendor-adapter oracle. -/
def adoStub : Ado :=
  { getAllTestPlans := fun _ _ => [],
    getTestPlan := fun _ => some (.obj []),
    createTestPlan := fun _ _ _ _ _ _ => .null,
    updateTestPlan := fun _ _ => .null,
    createTestCase := fun _ _ _ _ _ => .null,
    getTestCaseDetails := fun _ => .null,
    getMultipleTestCaseDetails := fun _ => .null,
    addTestCasesToSuite := fun _ _ _ => .null,
    getTestCaseList := fun _ _ => [],
    getTestResultsFromBuildId := fun _ => .null }

/-- Concrete generated identifiers. -/
def genStub : Gen := { connectionId := "cid123", issueId := "iid456" }

/-- A saved connection for resourceId "r1". -/
def conn0 : Connection :=
  { resourceId := "r1", connectionId := "c0", github_url := .str "g", prd := .str "p",
    ado_url := .str "a", website_url := .str "w" }

/-- A stored mock suite for resourceId "r1" whose `testCaseId` is "tc1". -/
def suite0 : TestSuite :=
  { name := "S", testCaseId := "tc1", testCases := [⟨.str "n", [], none, none⟩] }

/-- An initialized state holding a connection and a mock suite for "r1". -/
def stFull : ServerState :=
  { adoInitialized := true, connections := [("r1", conn0)], testSuites := [("r1", [suite0])] }

/-- The claim's success condition for a test case, following the claim and
spec wording for C5: `title`, `description` and `expectedResult` are required
string fields and `steps` an array field (presence and type, nothing about
emptiness).  To be compared with the source-derived `tcOk`. -/
def claimTcOk (tc : Json) : Bool :=
  isStrOpt (tc.getField "title") && isStrOpt (tc.getField "description") &&
    isArrOpt (tc.getField "steps") && isStrOpt (tc.getField "expectedResult")

/-- The claim's success condition for a recommendation element, following the
claim and spec wording for C5: `name`, `description`, `objective` are required
string fields, `testCases` an array field, and every test case satisfies
`claimTcOk`.  To be compared with the source-derived `recFieldsOk`/`tcOk`. -/
def claimRecOk (rec : Json) : Bool :=
  isStrOpt (rec.getField "name") && isStrOpt (rec.getField "description") &&
    isStrOpt (rec.getField "objective") && isArrOpt (rec.getField "testCases") &&
    (tcList rec).all claimTcOk

/-! ### Helper lemmas -/

/-- A Boolean that is not `true` is `false`. -/
theorem eq_false_of_not_eq_true {b : Bool} (h : ¬b = true) : b = false := by
  cases b
  · rfl
  · exact absurd rfl h

/-- Filtering out the bindings of key `k` does not change lookups of other
keys. -/
theorem lookup_filter_ne {α : Type} (m : List (String × α)) (k r : String) (h : r ≠ k) :
    (m.filter (fun p => !(p.1 == k))).lookup r = m.lookup r := by
  induction m with
  | nil => rfl
  | cons p rest ih =>
    have hrk : (r == k) = false := beq_eq_false_iff_ne.mpr h
    by_cases hp : p.1 = k
    · have hr : (r == p.1) = false := beq_eq_false_iff_ne.mpr (hp ▸ h)
      simp [List.filter_cons, hp, List.lookup, hr, hrk, ih]
    · have hp' : (p.1 == k) = false := beq_eq_false_iff_ne.mpr hp
      by_cases hr : r = p.1
      · simp [List.filter_cons, hp', List.lookup, hr]
      · have hr' : (r == p.1) = false := beq_eq_false_iff_ne.mpr hr
        simp [List.filter_cons, hp', List.lookup, hr', ih]

/-- `Map.set` on key `k` does not change `Map.get` of any other key. -/
theorem mapGet_mapSet_ne {α : Type} (m : List (String × α)) (k : String) (v : α)
    (r : String) (h : r ≠ k) : mapGet (mapSet m k v) r = mapGet m r := by
  unfold mapGet mapSet
  have hr : (r == k) = false := beq_eq_false_iff_ne.mpr h
  simp [List.lookup, hr]
  exact lookup_filter_ne m k r h

/-- A list containing an element that fails the filter predicate strictly
shrinks under `filter`. -/
theorem filter_length_lt {α : Type} (p : α → Bool) (l : List α) (x : α)
    (hx : x ∈ l) (hpx : p x = false) : (l.filter p).length < l.length := by
  induction l with
  | nil => cases hx
  | cons a t ih =>
    rcases List.mem_cons.mp hx with rfl | hmem
    · simp [List.filter_cons, hpx]
      exact Nat.lt_succ_of_le (List.length_filter_le p t)
    · by_cases hpa : p a = true
      · simp [List.filter_cons, hpa]
        exact ih hmem
      · simp [List.filter_cons, eq_false_of_not_eq_true hpa]
        exact Nat.lt_succ_of_lt (ih hmem)

/-- The indexed test-case `forEach` succeeds exactly when every test case
passes the check; the index arguments do not matter for success. -/
theorem validateTCs_ok_iff (i : Nat) (l : List Json) : ∀ (j : Nat),
    validateTCs i j l = .ok () ↔ l.all tcOk = true := by
  induction l with
  | nil => intro j; simp [validateTCs]
  | cons tc rest ih =>
    intro j
    by_cases h : tcOk tc = true
    · simp [validateTCs, h, ih (j + 1)]
    · simp [validateTCs, eq_false_of_not_eq_true h]

/-- The indexed recommendation `forEach` succeeds exactly when the whole
array is valid. -/
theorem validateRecs_ok_iff (l : List Json) : ∀ (i : Nat),
    validateRecs i l = .ok () ↔ recsValid l = true := by
  induction l with
  | nil => intro i; simp [validateRecs, recsValid]
  | cons rec rest ih =>
    intro i
    by_cases hr : recFieldsOk rec = true
    · cases htc : validateTCs i 0 (tcList rec) with
      | ok u =>
        cases u
        have hall : (tcList rec).all tcOk = true := (validateTCs_ok_iff i (tcList rec) 0).mp htc
        simp [validateRecs, hr, htc, recsValid, List.all_cons, hall, ih (i + 1)]
      | error m =>
        have hall : ¬(tcList rec).all tcOk = true := by
          intro hh
          have hcontra := (validateTCs_ok_iff i (tcList rec) 0).mpr hh
          rw [htc] at hcontra
          cases hcontra
        simp [validateRecs, hr, htc, recsValid, List.all_cons,
          eq_false_of_not_eq_true hall]
    · simp [validateRecs, eq_false_of_not_eq_true hr, recsValid, List.all_cons]

/-! ### Claim theorems -/

/-- Claim C1 (code evaluation at the failing input): because the 404
catch-all `app.use('*')` of server.ts line 444 is registered before the
`POST /:resourceId/saveConnection` (line 457) and `GET /:resourceId`
(line 504) routes, a save-connection request with all four required fields
present is answered 404 by the catch-all, stores nothing, and the follow-up
GET is also answered 404 by the catch-all — not the saved fields the claim
describes. -/
theorem saveConnection_unreachable :
    serve adoStub genStub ⟨true, [], []⟩
      ⟨.POST, ["r1", "saveConnection"], [],
        .obj [("github_url", .str "g"), ("prd", .str "p"), ("ado_url", .str "a"),
          ("website_url", .str "w")]⟩ =
      (⟨404, .notFoundBody "Not Found" "Route /r1/saveConnection not found" "/"⟩,
        ⟨true, [], []⟩, [])
  ∧ serve adoStub genStub ⟨true, [], []⟩ ⟨.GET, ["r1"], [], .null⟩ =
      (⟨404, .notFoundBody "Not Found" "Route /r1 not found" "/"⟩, ⟨true, [], []⟩, []) :=
  ⟨rfl, rfl⟩

/-- Claim C3 (code evaluation at the failing input): with a saved connection
and a stored suite whose `testCaseId` is "tc1" for resourceId "r1", a
`POST /r1/createIssue/tc1` with `title` and `body` present is answered 404 by
the `app.use('*')` catch-all (line 444, registered before the route of
line 600) and the stored suites are unchanged; the registered-but-unreachable
handler itself would have marked the suite's test case with the fresh issueId
and status "Creating". -/
theorem createIssue_unreachable :
    serve adoStub genStub stFull
      ⟨.POST, ["r1", "createIssue", "tc1"], [], .obj [("title", .str "t"), ("body", .str "b")]⟩ =
      (⟨404, .notFoundBody "Not Found" "Route /r1/createIssue/tc1 not found" "/"⟩, stFull, [])
  ∧ (createIssueHandler genStub stFull "r1" "tc1"
        (.obj [("title", .str "t"), ("body", .str "b")])).2.1.testSuites =
      [("r1", [{ name := "S", testCaseId := "tc1",
                 testCases := [⟨.str "n", [], some "iid456", some "Creating"⟩] }])] :=
  ⟨rfl, rfl⟩

/-- Claim C7 (code evaluation at the failing input): while the vendor client
is uninitialized, `/api/*` requests are indeed rejected with the 500
`ensureClientInitialized` response and never reach the adapter; but
`GET /:resourceId/ado_plans` is answered 404 by the `app.use('*')` catch-all
(line 444, registered before the route of line 537), not the 500 the claim
states. -/
theorem readiness_gate_bug :
    serve adoStub genStub ⟨false, [], []⟩ ⟨.GET, ["r1", "ado_plans"], [], .null⟩ =
      (⟨404, .notFoundBody "Not Found" "Route /r1/ado_plans not found" "/"⟩, ⟨false, [], []⟩, [])
  ∧ serve adoStub genStub ⟨false, [], []⟩ ⟨.GET, ["api", "testplans"], [], .null⟩ =
      (notInitializedResp, ⟨false, [], []⟩, []) :=
  ⟨rfl, rfl⟩

/-- Claim C6 (counterexample): `GET /api/testplans/12abc` is NOT rejected
with 400 — `parseInt("12abc")` is 12, so the handler calls the vendor adapter
with id 12 and answers 200, contradicting the claim that strings merely
starting with digits are rejected before any downstream call. -/
theorem numeric_guard_cex :
    serve adoStub genStub ⟨true, [], []⟩ ⟨.GET, ["api", "testplans", "12abc"], [], .null⟩ =
      (⟨200, .okData (.obj []) none⟩, ⟨true, [], []⟩, [.getTestPlan 12]) :=
  rfl

/-- Claim C5 (amended): `parseRecommendations` removes every occurrence of
the markdown fence markers (```json and ```, each with the following
whitespace run) and trims, parses the cleaned text as JSON, and succeeds —
returning exactly the parsed array — precisely when the result is an array in
which every element has truthy `name`, `description`, `objective` fields and
an array `testCases`, and every test case has truthy `title`, `description`,
`expectedResult` and an array `steps`; in every other case it throws an error
whose message begins with "Failed to parse recommendations". -/
theorem parseRecommendations_spec (content : String) :
    (∀ l, jsonParse (cleanContent content) = some (.arr l) → recsValid l = true →
      parseRecommendations content = .ok (.arr l))
  ∧ (∀ v, parseRecommendations content = .ok v →
      ∃ l, v = .arr l ∧ jsonParse (cleanContent content) = some (.arr l) ∧ recsValid l = true)
  ∧ (∀ msg, parseRecommendations content = .error msg →
      ∃ rest, msg = "Failed to parse recommendations: " ++ rest) := by
  refine ⟨?_, ?_, ?_⟩
  · intro l hl hv
    have hok : validateRecs 0 l = .ok () := (validateRecs_ok_iff l 0).mpr hv
    simp [parseRecommendations, hl, hok]
  · intro v hv
    unfold parseRecommendations at hv
    cases hp : jsonParse (cleanContent content) with
    | none => rw [hp] at hv; exact Except.noConfusion hv
    | some j =>
      rw [hp] at hv
      cases j with
      | arr l =>
        cases hvr : validateRecs 0 l with
        | ok u =>
          cases u
          simp only [hvr] at hv
          have hveq : Json.arr l = v := by
            injection hv
          exact ⟨l, hveq.symm, hp ▸ rfl, (validateRecs_ok_iff l 0).mp hvr⟩
        | error m =>
          simp only [hvr] at hv
          exact Except.noConfusion hv
      | null => exact Except.noConfusion hv
      | bool b => exact Except.noConfusion hv
      | num q => exact Except.noConfusion hv
      | str s => exact Except.noConfusion hv
      | obj fs => exact Except.noConfusion hv
  · intro msg hmsg
    unfold parseRecommendations at hmsg
    cases hp : jsonParse (cleanContent content) with
    | none =>
      rw [hp] at hmsg
      injection hmsg with hm
      exact ⟨jsonParseErrMsg, hm.symm⟩
    | some j =>
      rw [hp] at hmsg
      cases j with
      | arr l =>
        cases hvr : validateRecs 0 l with
        | ok u =>
          cases u
          simp only [hvr] at hmsg
          exact Except.noConfusion hmsg
        | error m =>
          simp only [hvr] at hmsg
          injection hmsg with hm
          exact ⟨m, hm.symm⟩
      | null => injection hmsg with hm; exact ⟨_, hm.symm⟩
      | bool b => injection hmsg with hm; exact ⟨_, hm.symm⟩
      | num q => injection hmsg with hm; exact ⟨_, hm.symm⟩
      | str s => injection hmsg with hm; exact ⟨_, hm.symm⟩
      | obj fs => injection hmsg with hm; exact ⟨_, hm.symm⟩

/-- Claim C5 (witness): a fenced, fully valid model output round-trips to the
parsed array. -/
theorem parseRecommendations_spec_witness :
    parseRecommendations
      "```json\n[\x7b\"name\":\"n\",\"description\":\"d\",\"objective\":\"o\",\"testCases\":[]\x7d]\n```" =
      .ok (.arr [.obj [("name", .str "n"), ("description", .str "d"),
        ("objective", .str "o"), ("testCases", .arr [])]]) :=
  (parseRecommendations_spec _).1 _ rfl rfl

/-- Claim C5 (counterexample to the claim as stated): an output that parses
to an array whose single element has all the claimed fields present and of
the claimed types — `name`, `description`, `objective` strings and
`testCases` an array — is nevertheless rejected, because `name` is the empty
string and the source checks truthiness, not presence. -/
theorem parseRecommendations_claim_cex :
    jsonParse (cleanContent
        "[\x7b\"name\":\"\",\"description\":\"d\",\"objective\":\"o\",\"testCases\":[]\x7d]") =
      some (.arr [.obj [("name", .str ""), ("description", .str "d"),
        ("objective", .str "o"), ("testCases", .arr [])]])
  ∧ claimRecOk (.obj [("name", .str ""), ("description", .str "d"),
      ("objective", .str "o"), ("testCases", .arr [])]) = true
  ∧ parseRecommendations
      "[\x7b\"name\":\"\",\"description\":\"d\",\"objective\":\"o\",\"testCases\":[]\x7d]" =
      .error "Failed to parse recommendations: Invalid recommendation structure at index 0" :=
  ⟨rfl, rfl, rfl⟩

/-- Claim C10: any recommendation element whose `name`, `description` or
`objective` is the empty string — or any of whose test cases has an empty
`title`, `description` or `expectedResult` — makes `parseRecommendations`
throw an error carrying the "Failed to parse recommendations" prefix, even
though the field is present and a string. -/
theorem parseRecommendations_rejects_empty (content : String) (l : List Json) (rec : Json)
    (hp : jsonParse (cleanContent content) = some (.arr l)) (hmem : rec ∈ l)
    (hbad :
      rec.getField "name" = some (.str "") ∨
      rec.getField "description" = some (.str "") ∨
      rec.getField "objective" = some (.str "") ∨
      ∃ tcs tc, rec.getField "testCases" = some (.arr tcs) ∧ tc ∈ tcs ∧
        (tc.getField "title" = some (.str "") ∨ tc.getField "description" = some (.str "") ∨
          tc.getField "expectedResult" = some (.str ""))) :
    ∃ rest, parseRecommendations content =
      .error ("Failed to parse recommendations: " ++ rest) := by
  have hfalse : ¬recsValid l = true := by
    intro hall
    simp only [recsValid, List.all_eq_true] at hall
    have hrec := hall rec hmem
    simp only [Bool.and_eq_true] at hrec
    rcases hbad with hb | hb | hb | ⟨tcs, tc, htcs, htcmem, hb⟩
    · have hne : recFieldsOk rec = false := by
        simp [recFieldsOk, hb, truthyOpt, Json.truthy]
      rw [hrec.1] at hne
      exact Bool.noConfusion hne
    · have hne : recFieldsOk rec = false := by
        simp [recFieldsOk, hb, truthyOpt, Json.truthy]
      rw [hrec.1] at hne
      exact Bool.noConfusion hne
    · have hne : recFieldsOk rec = false := by
        simp [recFieldsOk, hb, truthyOpt, Json.truthy]
      rw [hrec.1] at hne
      exact Bool.noConfusion hne
    · have htl : tcList rec = tcs := by simp [tcList, htcs]
      have htc_all := hrec.2
      rw [htl] at htc_all
      have htcok := (List.all_eq_true.mp htc_all) tc htcmem
      have hne : tcOk tc = false := by
        rcases hb with hbb | hbb | hbb <;> simp [tcOk, hbb, truthyOpt, Json.truthy]
      rw [htcok] at hne
      exact Bool.noConfusion hne
  cases hvr : validateRecs 0 l with
  | ok u =>
    cases u
    exact absurd ((validateRecs_ok_iff l 0).mp hvr) hfalse
  | error m =>
    refine ⟨m, ?_⟩
    simp [parseRecommendations, hp, hvr]

/-- Claim C10 (witness): an element whose `description` is the empty string
is rejected with the prefixed error. -/
theorem parseRecommendations_rejects_empty_witness :
    ∃ rest, parseRecommendations
        "[\x7b\"name\":\"n\",\"description\":\"\",\"objective\":\"o\",\"testCases\":[]\x7d]" =
      .error ("Failed to parse recommendations: " ++ rest) :=
  parseRecommendations_rejects_empty _
    [.obj [("name", .str "n"), ("description", .str ""),
      ("objective", .str "o"), ("testCases", .arr [])]]
    (.obj [("name", .str "n"), ("description", .str ""),
      ("objective", .str "o"), ("testCases", .arr [])])
    rfl (List.mem_singleton_self _) (Or.inr (Or.inl rfl))

/-- Claim C2: a recommendation request whose body lacks `prd` is answered
400 with "PRD (Product Requirements Document) is required"; with `prd`
present (and a testPlanId and a successful model call) the success envelope
is `{testPlanId, prdLength, existingTestCasesCount, recommendations,
generatedAt}` with `prdLength` the character count of the supplied PRD. -/
theorem recommendations_spec (env : Option String) (cnt : Nat) (llm : Except String Json)
    (now : String) (body : Json) :
    (body.getField "prd" = none →
      recommendationsHandler env cnt llm now body =
        .badRequest "PRD (Product Requirements Document) is required")
  ∧ (∀ p t recs, body.getField "prd" = some (.str p) → p ≠ "" →
      body.getField "testPlanId" = some (.str t) → llm = .ok recs →
      recommendationsHandler env cnt llm now body =
        .ok ⟨t, p.length, cnt, recs, now⟩) := by
  constructor
  · intro h
    simp [recommendationsHandler, h]
  · intro p t recs hp hne ht hllm
    simp [recommendationsHandler, hp, hne, ht, hllm]

/-- Claim C2 (witness): a concrete body with a 5-character PRD and a
testPlanId yields the success envelope. -/
theorem recommendations_spec_witness :
    recommendationsHandler none 3 (.ok (.arr [])) "T"
      (.obj [("prd", .str "hello"), ("testPlanId", .str "42")]) =
      .ok ⟨"42", 5, 3, .arr [], "T"⟩ :=
  (recommendations_spec none 3 (.ok (.arr [])) "T"
    (.obj [("prd", .str "hello"), ("testPlanId", .str "42")])).2
    "hello" "42" (.arr []) rfl (by decide) rfl rfl

/-- Claim C4: for POST /api/testcases/batch (with the client initialized),
a missing/non-array `ids` or an empty array yields 400 "ids array is required
and cannot be empty"; an array of more than 100 entries (regardless of their
contents) yields 400 "Maximum 100 test case IDs allowed per request"; an
array of at most 100 entries containing any non-positive-integer entry yields
400 "All IDs must be positive integers"; in all three cases no vendor
adapter call is made. -/
theorem batch_validation (ado : Ado) (gen : Gen) (conns : List (String × Connection))
    (suites : List (String × List TestSuite)) (body : Json) :
    (isArrOpt (body.getField "ids") = false →
      serve ado gen ⟨true, conns, suites⟩ ⟨.POST, ["api", "testcases", "batch"], [], body⟩ =
        (⟨400, .err "ids array is required and cannot be empty" none⟩, ⟨true, conns, suites⟩, []))
  ∧ (body.getField "ids" = some (.arr []) →
      serve ado gen ⟨true, conns, suites⟩ ⟨.POST, ["api", "testcases", "batch"], [], body⟩ =
        (⟨400, .err "ids array is required and cannot be empty" none⟩, ⟨true, conns, suites⟩, []))
  ∧ (∀ l, body.getField "ids" = some (.arr l) → 100 < l.length →
      serve ado gen ⟨true, conns, suites⟩ ⟨.POST, ["api", "testcases", "batch"], [], body⟩ =
        (⟨400, .err "Maximum 100 test case IDs allowed per request" none⟩,
          ⟨true, conns, suites⟩, []))
  ∧ (∀ l x, body.getField "ids" = some (.arr l) → l.length ≤ 100 → x ∈ l →
      isPosIntJson x = false →
      serve ado gen ⟨true, conns, suites⟩ ⟨.POST, ["api", "testcases", "batch"], [], body⟩ =
        (⟨400, .err "All IDs must be positive integers" none⟩, ⟨true, conns, suites⟩, [])) := by
  refine ⟨?_, ?_, ?_, ?_⟩
  · intro hna
    show batchHandler ado ⟨true, conns, suites⟩ body =
      (⟨400, .err "ids array is required and cannot be empty" none⟩, ⟨true, conns, suites⟩, [])
    cases hg : body.getField "ids" with
    | none => simp [batchHandler, hg]
    | some j =>
      cases j with
      | arr l => rw [hg] at hna; exact Bool.noConfusion hna
      | null => simp [batchHandler, hg]
      | bool b => simp [batchHandler, hg]
      | num q => simp [batchHandler, hg]
      | str s => simp [batchHandler, hg]
      | obj fs => simp [batchHandler, hg]
  · intro hg
    show batchHandler ado ⟨true, conns, suites⟩ body =
      (⟨400, .err "ids array is required and cannot be empty" none⟩, ⟨true, conns, suites⟩, [])
    simp [batchHandler, hg]
  · intro l hg hlen
    show batchHandler ado ⟨true, conns, suites⟩ body =
      (⟨400, .err "Maximum 100 test case IDs allowed per request" none⟩,
        ⟨true, conns, suites⟩, [])
    have h0 : ¬l.length = 0 := by omega
    simp [batchHandler, hg, h0, hlen]
  · intro l x hg hlen hx hpx
    show batchHandler ado ⟨true, conns, suites⟩ body =
      (⟨400, .err "All IDs must be positive integers" none⟩, ⟨true, conns, suites⟩, [])
    have h0 : ¬l.length = 0 := by
      have : 0 < l.length := List.length_pos.mpr (List.ne_nil_of_mem hx)
      omega
    have h100 : ¬100 < l.length := by omega
    have hne : (l.filter isPosIntJson).length ≠ l.length :=
      Nat.ne_of_lt (filter_length_lt isPosIntJson l x hx hpx)
    simp [batchHandler, hg, h0, h100, hne]

/-- Claim C4 (witness): an empty `ids` array is rejected with the first
message and no adapter call. -/
theorem batch_validation_witness :
    serve adoStub genStub ⟨true, [], []⟩
      ⟨.POST, ["api", "testcases", "batch"], [], .obj [("ids", .arr [])]⟩ =
      (⟨400, .err "ids array is required and cannot be empty" none⟩, ⟨true, [], []⟩, []) :=
  (batch_validation adoStub genStub [] [] (.obj [("ids", .arr [])])).2.1 rfl

/-- Claim C6 (amended): a numeric-id path segment on which `parseInt` yields
`NaN` (no parseable leading integer) is rejected with 400 by every
numeric-id endpoint before any vendor adapter call; segments with a parseable
integer prefix, such as "12abc" or "3.7", are instead accepted with the
prefix value (see the counterexample theorem). -/
theorem numeric_guard_400 (ado : Ado) (gen : Gen) (conns : List (String × Connection))
    (suites : List (String × List TestSuite)) (s : String) (q : List (String × String))
    (body : Json) (h : jsParseInt s = none) :
    ((serve ado gen ⟨true, conns, suites⟩ ⟨.GET, ["api", "testplans", s], q, body⟩).1.status = 400
      ∧ (serve ado gen ⟨true, conns, suites⟩ ⟨.GET, ["api", "testplans", s], q, body⟩).2.2 = [])
  ∧ ((serve ado gen ⟨true, conns, suites⟩ ⟨.PUT, ["api", "testplans", s], q, body⟩).1.status = 400
      ∧ (serve ado gen ⟨true, conns, suites⟩ ⟨.PUT, ["api", "testplans", s], q, body⟩).2.2 = [])
  ∧ ((serve ado gen ⟨true, conns, suites⟩ ⟨.DELETE, ["api", "testplans", s], q, body⟩).1.status = 400
      ∧ (serve ado gen ⟨true, conns, suites⟩ ⟨.DELETE, ["api", "testplans", s], q, body⟩).2.2 = [])
  ∧ ((serve ado gen ⟨true, conns, suites⟩ ⟨.GET, ["api", "testcases", s], q, body⟩).1.status = 400
      ∧ (serve ado gen ⟨true, conns, suites⟩ ⟨.GET, ["api", "testcases", s], q, body⟩).2.2 = [])
  ∧ ((serve ado gen ⟨true, conns, suites⟩
        ⟨.POST, ["api", "testplans", s, "suites", s, "testcases"], q, body⟩).1.status = 400
      ∧ (serve ado gen ⟨true, conns, suites⟩
          ⟨.POST, ["api", "testplans", s, "suites", s, "testcases"], q, body⟩).2.2 = [])
  ∧ ((serve ado gen ⟨true, conns, suites⟩
        ⟨.GET, ["api", "testplans", s, "suites", s, "testcases"], q, body⟩).1.status = 400
      ∧ (serve ado gen ⟨true, conns, suites⟩
          ⟨.GET, ["api", "testplans", s, "suites", s, "testcases"], q, body⟩).2.2 = [])
  ∧ ((serve ado gen ⟨true, conns, suites⟩
        ⟨.GET, ["api", "builds", s, "testresults"], q, body⟩).1.status = 400
      ∧ (serve ado gen ⟨true, conns, suites⟩
          ⟨.GET, ["api", "builds", s, "testresults"], q, body⟩).2.2 = []) := by
  refine ⟨⟨?_, ?_⟩, ⟨?_, ?_⟩, ⟨?_, ?_⟩, ⟨?_, ?_⟩, ⟨?_, ?_⟩, ⟨?_, ?_⟩, ⟨?_, ?_⟩⟩
  · show (getTestPlanByIdHandler ado ⟨true, conns, suites⟩ s).1.status = 400
    simp [getTestPlanByIdHandler, h]
  · show (getTestPlanByIdHandler ado ⟨true, conns, suites⟩ s).2.2 = []
    simp [getTestPlanByIdHandler, h]
  · show (updateTestPlanHandler ado ⟨true, conns, suites⟩ s body).1.status = 400
    simp [updateTestPlanHandler, h]
  · show (updateTestPlanHandler ado ⟨true, conns, suites⟩ s body).2.2 = []
    simp [updateTestPlanHandler, h]
  · show (deleteTestPlanHandler ⟨true, conns, suites⟩ s).1.status = 400
    simp [deleteTestPlanHandler, h]
  · show (deleteTestPlanHandler ⟨true, conns, suites⟩ s).2.2 = []
    simp [deleteTestPlanHandler, h]
  · show (getTestCaseDetailsHandler ado ⟨true, conns, suites⟩ s).1.status = 400
    simp [getTestCaseDetailsHandler, h]
  · show (getTestCaseDetailsHandler ado ⟨true, conns, suites⟩ s).2.2 = []
    simp [getTestCaseDetailsHandler, h]
  · show (addToSuiteHandler ado ⟨true, conns, suites⟩ s s body).1.status = 400
    simp [addToSuiteHandler, h]
  · show (addToSuiteHandler ado ⟨true, conns, suites⟩ s s body).2.2 = []
    simp [addToSuiteHandler, h]
  · show (suiteCasesHandler ado ⟨true, conns, suites⟩ s s).1.status = 400
    simp [suiteCasesHandler, h]
  · show (suiteCasesHandler ado ⟨true, conns, suites⟩ s s).2.2 = []
    simp [suiteCasesHandler, h]
  · show (buildResultsHandler ado ⟨true, conns, suites⟩ s).1.status = 400
    simp [buildResultsHandler, h]
  · show (buildResultsHandler ado ⟨true, conns, suites⟩ s).2.2 = []
    simp [buildResultsHandler, h]

/-- Claim C6 (amended, witness): "abc" has no parseable integer prefix, so
GET /api/testplans/abc is answered 400. -/
theorem numeric_guard_400_witness :
    (serve adoStub genStub ⟨true, [], []⟩
      ⟨.GET, ["api", "testplans", "abc"], [], .null⟩).1.status = 400 :=
  (numeric_guard_400 adoStub genStub [] [] "abc" [] .null rfl).1.1

/-- Claim C8: GET /api/testplans resolves `filterActivePlans` to true exactly
when the query parameter is absent or any string other than the exact string
"false", resolves `includePlanDetails` to true exactly when the parameter is
the exact string "true", forwards both flags to the adapter, and echoes them
in the response's filters. -/
theorem testplans_query_flags (ado : Ado) (gen : Gen) (conns : List (String × Connection))
    (suites : List (String × List TestSuite)) (q : List (String × String)) (body : Json) :
    serve ado gen ⟨true, conns, suites⟩ ⟨.GET, ["api", "testplans"], q, body⟩ =
      (⟨200, .plansList
          (ado.getAllTestPlans (!(q.lookup "filterActivePlans" == some "false"))
            (q.lookup "includePlanDetails" == some "true"))
          (ado.getAllTestPlans (!(q.lookup "filterActivePlans" == some "false"))
            (q.lookup "includePlanDetails" == some "true")).length
          (!(q.lookup "filterActivePlans" == some "false"))
          (q.lookup "includePlanDetails" == some "true")⟩,
        ⟨true, conns, suites⟩,
        [.getAllTestPlans (!(q.lookup "filterActivePlans" == some "false"))
          (q.lookup "includePlanDetails" == some "true")])
  ∧ ((!(q.lookup "filterActivePlans" == some "false")) = true ↔
      q.lookup "filterActivePlans" = none ∨
        ∃ v, q.lookup "filterActivePlans" = some v ∧ v ≠ "false")
  ∧ ((q.lookup "includePlanDetails" == some "true") = true ↔
      q.lookup "includePlanDetails" = some "true") := by
  refine ⟨rfl, ?_, ?_⟩
  · cases hq : q.lookup "filterActivePlans" with
    | none => simp
    | some v =>
      by_cases hv : v = "false"
      · simp [hv]
      · simp [hv]
  · simp

/-- Claim C8 (witness): the value "False" (capital F) still resolves
`filterActivePlans` to true. -/
theorem testplans_query_flags_witness :
    serve adoStub genStub ⟨true, [], []⟩
      ⟨.GET, ["api", "testplans"], [("filterActivePlans", "False")], .null⟩ =
      (⟨200, .plansList [] 0 true false⟩, ⟨true, [], []⟩, [.getAllTestPlans true false]) :=
  (testplans_query_flags adoStub genStub [] [] [("filterActivePlans", "False")] .null).1

/-- Claim C9: the three registry-mutating handlers keyed by resourceId touch
at most the `connections` and `testSuites` entries of that one resourceId:
lookups of any other resourceId are unchanged by `saveConnectionHandler`,
`adoPlansHandler` and `createIssueHandler`. -/
theorem registry_frame (ado : Ado) (gen : Gen) (st : ServerState) (r rOther tc : String)
    (body : Json) (h : rOther ≠ r) :
    (mapGet (saveConnectionHandler gen st r body).2.1.connections rOther =
        mapGet st.connections rOther
      ∧ mapGet (saveConnectionHandler gen st r body).2.1.testSuites rOther =
        mapGet st.testSuites rOther)
  ∧ (mapGet (adoPlansHandler ado st r).2.1.connections rOther = mapGet st.connections rOther
      ∧ mapGet (adoPlansHandler ado st r).2.1.testSuites rOther = mapGet st.testSuites rOther)
  ∧ (mapGet (createIssueHandler gen st r tc body).2.1.connections rOther =
        mapGet st.connections rOther
      ∧ mapGet (createIssueHandler gen st r tc body).2.1.testSuites rOther =
        mapGet st.testSuites rOther) := by
  refine ⟨⟨?_, ?_⟩, ?_, ?_⟩
  · simp only [saveConnectionHandler]
    split
    · rfl
    · exact mapGet_mapSet_ne _ _ _ _ h
  · simp only [saveConnectionHandler]
    split
    · rfl
    · rfl
  · cases hc : mapGet st.connections r with
    | none => simp [adoPlansHandler, hc]
    | some c =>
      simp only [adoPlansHandler, hc]
      exact ⟨by trivial, mapGet_mapSet_ne _ _ _ _ h⟩
  · cases hc : mapGet st.connections r with
    | none => simp [createIssueHandler, hc]
    | some c =>
      simp only [createIssueHandler, hc]
      split
      · exact ⟨by trivial, by trivial⟩
      · exact ⟨by trivial, mapGet_mapSet_ne _ _ _ _ h⟩

/-- Claim C9 (witness): saving a connection under "a" leaves the entry of
"b" untouched. -/
theorem registry_frame_witness :
    mapGet (saveConnectionHandler genStub ⟨true, [("b", conn0)], []⟩ "a"
        (.obj [("github_url", .str "g"), ("prd", .str "p"), ("ado_url", .str "a"),
          ("website_url", .str "w")])).2.1.connections "b" =
      mapGet (ServerState.mk true [("b", conn0)] []).connections "b" :=
  (registry_frame adoStub genStub ⟨true, [("b", conn0)], []⟩ "a" "b" "tc"
    (.obj [("github_url", .str "g"), ("prd", .str "p"), ("ado_url", .str "a"),
      ("website_url", .str "w")]) (by decide)).1.1

end TPS
